import Mathlib

/-!
# dwmac-socfpga: PHY-mode programming and link-speed switching

A shallow embedding of `drivers/net/ethernet/stmicro/stmmac/dwmac-socfpga.c`.

* 32-bit machine words (`u32`) are natural numbers; every operation that can
  leave the 32-bit range is reduced modulo `2 ^ 32` explicitly.
* The hardware is an explicit state `Hw` that is passed through every
  operation, together with an ordered trace of the calls the driver makes.
* Code of other translation units is a parameter of the embedding: the
  `phy_interface_t` enumerators of `linux/phy.h` (`PhyModes`), the regmap
  back end (`regmap`), the secure monitor behind `arm_smccc_smc`, and the two
  entry points of `altr_tse_pcs.c` (`tse_pcs_ops`).
* Diagnostics (`dev_err`, `dev_info`) are not hardware effects and are left
  out.
-/

namespace DwmacSocfpga

/-! ## Constants (source lines 35-52, 89-91, 108, 127) -/

def SGMII_ADAPTER_CTRL_REG : Nat := 0x00
def SGMII_ADAPTER_DISABLE : Nat := 0x0001

def SYSMGR_EMACGRP_CTRL_PHYSEL_ENUM_GMII_MII : Nat := 0x0
def SYSMGR_EMACGRP_CTRL_PHYSEL_ENUM_RGMII : Nat := 0x1
def SYSMGR_EMACGRP_CTRL_PHYSEL_ENUM_RMII : Nat := 0x2
def SYSMGR_EMACGRP_CTRL_PHYSEL_WIDTH : Nat := 2
def SYSMGR_EMACGRP_CTRL_PHYSEL_MASK : Nat := 0x00000003
def SYSMGR_EMACGRP_CTRL_PTP_REF_CLK_MASK : Nat := 0x00000010

def SYSMGR_FPGAGRP_MODULE_REG : Nat := 0x00000028
def SYSMGR_FPGAGRP_MODULE_EMAC : Nat := 0x00000004

def EMAC_SPLITTER_CTRL_REG : Nat := 0x0
def EMAC_SPLITTER_CTRL_SPEED_MASK : Nat := 0x3
def EMAC_SPLITTER_CTRL_SPEED_10 : Nat := 0x2
def EMAC_SPLITTER_CTRL_SPEED_100 : Nat := 0x3
def EMAC_SPLITTER_CTRL_SPEED_1000 : Nat := 0x0

def INTEL_SIP_SMC_RETURN_UNKNOWN_FUNCTION : Nat := 0xFFFFFFFF
def INTEL_SIP_SMC_STATUS_OK : Nat := 0x0
def INTEL_SIP_SMC_REG_ERROR : Nat := 0x5
def INTEL_SIP_SMC_FUNCID_REG_READ : Nat := 7
def INTEL_SIP_SMC_FUNCID_REG_WRITE : Nat := 8

/-- The errno value behind `-EINVAL`. -/
def EINVAL : Int := 22

/-! ## 32-bit arithmetic -/

/-- The C expression `x << s` evaluated in 32 bits. -/
def shl32 (x s : Nat) : Nat := (x <<< s) % 2 ^ 32

/-- The C expression `~x` evaluated in 32 bits. -/
def not32 (x : Nat) : Nat := 2 ^ 32 - (x % 2 ^ 32 + 1)

/-- The C cast `(int)x` of an unsigned register value: the low 32 bits,
read as two's complement. -/
def to_int32 (x : Nat) : Int :=
  if x % 2 ^ 32 < 2 ^ 31 then ((x % 2 ^ 32 : Nat) : Int)
  else ((x % 2 ^ 32 : Nat) : Int) - 2 ^ 32

/-! ## Data model -/

/-- The enumerators of `phy_interface_t` that the driver names. The
enumeration is declared in `linux/phy.h`, outside this file, so their numeric
values are a parameter. -/
structure PhyModes where
  PHY_INTERFACE_MODE_MII : Int
  PHY_INTERFACE_MODE_GMII : Int
  PHY_INTERFACE_MODE_SGMII : Int
  PHY_INTERFACE_MODE_RGMII : Int
  PHY_INTERFACE_MODE_RGMII_ID : Int

/-- The part of `struct tse_pcs` the driver looks at: whether each of the
two mapped bases is non-NULL. -/
structure tse_pcs where
  tse_pcs_base : Bool
  sgmii_adapter_base : Bool
deriving DecidableEq, Repr

/-- The record `struct socfpga_dwmac` (lines 54-68). A reset handle is the
number of the reset line it controls, `none` for a NULL handle (the
optional getter found no line); `splitter_base` says whether the mapping is
non-NULL. -/
structure socfpga_dwmac where
  interface : Int
  reg_offset : Nat
  reg_shift : Nat
  sysmgr_reg : Nat
  stmmac_rst : Option Nat
  stmmac_ocp_rst : Option Nat
  splitter_base : Bool
  f2h_ptp_ref_clk : Bool
  pcs : tse_pcs
deriving DecidableEq, Repr

/-- One call the driver makes to the outside, in program order. -/
inductive Event where
  | reset_control_assert (rstc : Option Nat)
  | reset_control_deassert (rstc : Option Nat)
  | regmap_read (reg val : Nat) (ret : Int)
  | regmap_write (reg val : Nat) (ret : Int)
  | tse_pcs_init (ret : Int)
  | adapter_writew (val off : Nat)
  | splitter_readl (off val : Nat)
  | splitter_writel (val off : Nat)
  | tse_pcs_fix_mac_speed (speed : Nat)
deriving DecidableEq, Repr

/-- The hardware the driver acts on: the reset lines, the register space
behind the regmap (`σ`), the splitter and adapter register blocks, the PCS
block (`π`), and the calls made so far. -/
structure Hw (σ π : Type) where
  reset_asserted : Nat → Bool
  sysmgr : σ
  splitter : Nat → Nat
  sgmii_adapter : Nat → Nat
  pcs_block : π
  trace : List Event

/-- A regmap back end: `reg_read` gives the status, the value read and the
register space afterwards, `reg_write` the status and the register space
afterwards. Status `0` is success. -/
structure regmap (σ : Type) where
  reg_read : σ → Nat → Int × Nat × σ
  reg_write : σ → Nat → Nat → Int × σ

/-- The two entry points of `altr_tse_pcs.c` the driver calls. They act on
the adapter block and the PCS block only. -/
structure tse_pcs_ops (π : Type) where
  tse_pcs_init : tse_pcs → (Nat → Nat) × π → Int × ((Nat → Nat) × π)
  tse_pcs_fix_mac_speed : tse_pcs → Nat → (Nat → Nat) × π → (Nat → Nat) × π

/-- The result registers of an SMC call that the driver reads. -/
structure arm_smccc_res where
  a0 : Nat
  a1 : Nat
deriving DecidableEq, Repr

/-! ## Register Access Port: the Stratix 10 back end (lines 142-184) -/

/-- The function `s10_protected_reg_write`: one SMC call, whose `a0` is the
status. `smc` is the secure monitor: function number, register, value. -/
def s10_protected_reg_write {σ : Type} (smc : σ → Nat → Nat → Nat → arm_smccc_res × σ)
    (s : σ) (reg val : Nat) : Int × σ :=
  let result := smc s INTEL_SIP_SMC_FUNCID_REG_WRITE reg val
  (to_int32 result.1.a0, result.2)

/-- The function `s10_protected_reg_read`: one SMC call; `*val` is set from
`a1` whatever the status in `a0`. -/
def s10_protected_reg_read {σ : Type} (smc : σ → Nat → Nat → Nat → arm_smccc_res × σ)
    (s : σ) (reg : Nat) : Int × Nat × σ :=
  let result := smc s INTEL_SIP_SMC_FUNCID_REG_READ reg 0
  (to_int32 result.1.a0, result.1.a1 % 2 ^ 32, result.2)

/-- The regmap `s10_emac_regmap_cfg`. -/
def s10_emac_regmap {σ : Type} (smc : σ → Nat → Nat → Nat → arm_smccc_res × σ) : regmap σ :=
  ⟨s10_protected_reg_read smc, s10_protected_reg_write smc⟩

/-- Modelled from the spec: the syscon regmap of the build without SMC
calls is not under src/. It is the direct mode of the Register Access Port:
loads and stores on a mapped 32-bit register space, status always ok. -/
def mmio_regmap : regmap (Nat → Nat) :=
  ⟨fun s reg => (0, s reg % 2 ^ 32, s), fun s reg val => (0, Function.update s reg (val % 2 ^ 32))⟩

/-! ## Primitive operations on the hardware state -/

/-- Append one call to the trace. -/
def Hw.log {σ π : Type} (st : Hw σ π) (e : Event) : Hw σ π :=
  { st with trace := st.trace ++ [e] }

/-- Modelled from the spec: `reset_control_assert` belongs to the reset
framework (`linux/reset.h`), not under src/. The call asserts the line
behind the handle; a reset line is optional, and a NULL handle is accepted
and does nothing. The driver does not look at the status, so none is
returned. -/
def reset_control_assert {σ π : Type} (rstc : Option Nat) (st : Hw σ π) : Hw σ π :=
  let st1 := st.log (Event.reset_control_assert rstc)
  match rstc with
  | none => st1
  | some n => { st1 with reset_asserted := Function.update st1.reset_asserted n true }

/-- Modelled from the spec: `reset_control_deassert`, of the same framework,
releases the line behind the handle; a NULL handle does nothing. -/
def reset_control_deassert {σ π : Type} (rstc : Option Nat) (st : Hw σ π) : Hw σ π :=
  let st1 := st.log (Event.reset_control_deassert rstc)
  match rstc with
  | none => st1
  | some n => { st1 with reset_asserted := Function.update st1.reset_asserted n false }

/-- Modelled from the spec: `regmap_read` belongs to the regmap core, not
under src/. The call `regmap_read(map, reg, &val)` is one read through the
back end: status, the 32-bit value left in `val`, and the state afterwards. -/
def regmap_read {σ π : Type} (m : regmap σ) (reg : Nat) (st : Hw σ π) : Int × Nat × Hw σ π :=
  let r := m.reg_read st.sysmgr reg
  (r.1, r.2.1 % 2 ^ 32,
    { st with sysmgr := r.2.2, trace := st.trace ++ [Event.regmap_read reg (r.2.1 % 2 ^ 32) r.1] })

/-- Modelled from the spec: `regmap_write`, of the same core. The call
`regmap_write(map, reg, val)` is one write through the back end: status and
the state afterwards. -/
def regmap_write {σ π : Type} (m : regmap σ) (reg val : Nat) (st : Hw σ π) : Int × Hw σ π :=
  let r := m.reg_write st.sysmgr reg val
  (r.1, { st with sysmgr := r.2, trace := st.trace ++ [Event.regmap_write reg val r.1] })

/-- Modelled from the spec: the accessor `writew` is not under src/. The
store `writew(val, sgmii_adapter_base + off)`, 16 bits wide. -/
def adapter_writew {σ π : Type} (val off : Nat) (st : Hw σ π) : Hw σ π :=
  { st with sgmii_adapter := Function.update st.sgmii_adapter off (val % 2 ^ 16),
            trace := st.trace ++ [Event.adapter_writew val off] }

/-- Modelled from the spec: the accessor `readl` is not under src/. The load
`readl(splitter_base + off)`, 32 bits wide. -/
def splitter_readl {σ π : Type} (off : Nat) (st : Hw σ π) : Nat × Hw σ π :=
  (st.splitter off % 2 ^ 32,
    { st with trace := st.trace ++ [Event.splitter_readl off (st.splitter off % 2 ^ 32)] })

/-- Modelled from the spec: the accessor `writel` is not under src/. The
store `writel(val, splitter_base + off)`, 32 bits wide. -/
def splitter_writel {σ π : Type} (val off : Nat) (st : Hw σ π) : Hw σ π :=
  { st with splitter := Function.update st.splitter off (val % 2 ^ 32),
            trace := st.trace ++ [Event.splitter_writel val off] }

/-- The call `tse_pcs_init(pcs->tse_pcs_base, pcs)`: the entry point is a
parameter (`P`); the call is recorded with the status it returns. -/
def tse_pcs_init {σ π : Type} (P : tse_pcs_ops π) (pcs : tse_pcs) (st : Hw σ π) : Int × Hw σ π :=
  let r := P.tse_pcs_init pcs (st.sgmii_adapter, st.pcs_block)
  (r.1, { st with sgmii_adapter := r.2.1, pcs_block := r.2.2,
                  trace := st.trace ++ [Event.tse_pcs_init r.1] })

/-- The call `tse_pcs_fix_mac_speed(pcs, phy_dev, speed)`: the entry point
is a parameter (`P`); the call is recorded with its speed. -/
def tse_pcs_fix_mac_speed {σ π : Type} (P : tse_pcs_ops π) (pcs : tse_pcs) (speed : Nat)
    (st : Hw σ π) : Hw σ π :=
  let r := P.tse_pcs_fix_mac_speed pcs speed (st.sgmii_adapter, st.pcs_block)
  { st with sgmii_adapter := r.1, pcs_block := r.2,
            trace := st.trace ++ [Event.tse_pcs_fix_mac_speed speed] }

/-! ## The speed-switch handler (lines 187-224) -/

/-- The `switch (speed)` of lines 206-218: the splitter speed field for a
supported speed, `none` for the `default:` branch. -/
def splitter_speed (speed : Nat) : Option Nat :=
  if speed = 1000 then some EMAC_SPLITTER_CTRL_SPEED_1000
  else if speed = 100 then some EMAC_SPLITTER_CTRL_SPEED_100
  else if speed = 10 then some EMAC_SPLITTER_CTRL_SPEED_10
  else none

/-- The function `socfpga_dwmac_fix_mac_speed`. The `default:` branch of the
switch returns from the whole function. -/
def socfpga_dwmac_fix_mac_speed {σ π : Type} (P : tse_pcs_ops π) (dwmac : socfpga_dwmac)
    (speed : Nat) (st : Hw σ π) : Hw σ π :=
  let st1 :=
    if dwmac.pcs.tse_pcs_base && dwmac.pcs.sgmii_adapter_base then
      adapter_writew SGMII_ADAPTER_DISABLE SGMII_ADAPTER_CTRL_REG st
    else st
  if dwmac.splitter_base then
    let rd := splitter_readl EMAC_SPLITTER_CTRL_REG st1
    let val := rd.1 &&& not32 EMAC_SPLITTER_CTRL_SPEED_MASK
    match splitter_speed speed with
    | none => rd.2
    | some enc =>
      let st2 := splitter_writel (val ||| enc) EMAC_SPLITTER_CTRL_REG rd.2
      if dwmac.pcs.tse_pcs_base && dwmac.pcs.sgmii_adapter_base then
        tse_pcs_fix_mac_speed P dwmac.pcs speed st2
      else st2
  else
    if dwmac.pcs.tse_pcs_base && dwmac.pcs.sgmii_adapter_base then
      tse_pcs_fix_mac_speed P dwmac.pcs speed st1
    else st1

/-! ## The PHY-mode programmer (lines 384-462) -/

/-- The `switch (phymode)` of lines 395-408: the PHYSEL encoding of a
supported mode, `none` for the `default:` branch. -/
def phymode_physel (E : PhyModes) (phymode : Int) : Option Nat :=
  if phymode = E.PHY_INTERFACE_MODE_RGMII ∨ phymode = E.PHY_INTERFACE_MODE_RGMII_ID then
    some SYSMGR_EMACGRP_CTRL_PHYSEL_ENUM_RGMII
  else if phymode = E.PHY_INTERFACE_MODE_MII ∨ phymode = E.PHY_INTERFACE_MODE_GMII ∨
      phymode = E.PHY_INTERFACE_MODE_SGMII then
    some SYSMGR_EMACGRP_CTRL_PHYSEL_ENUM_GMII_MII
  else none

/-- The value of `val` after line 415: the encoding of the mode, replaced by
the GMII/MII encoding when a splitter is mapped. -/
def physel_val (E : PhyModes) (dwmac : socfpga_dwmac) : Option Nat :=
  match phymode_physel E dwmac.interface with
  | none => none
  | some val => some (if dwmac.splitter_base then SYSMGR_EMACGRP_CTRL_PHYSEL_ENUM_GMII_MII else val)

/-- The condition of lines 429-432. -/
def ptp_ref_clk (E : PhyModes) (dwmac : socfpga_dwmac) : Bool :=
  dwmac.f2h_ptp_ref_clk ||
    decide (dwmac.interface = E.PHY_INTERFACE_MODE_MII) ||
    decide (dwmac.interface = E.PHY_INTERFACE_MODE_GMII) ||
    decide (dwmac.interface = E.PHY_INTERFACE_MODE_SGMII)

/-- The address of the control register: `sysmgr_reg + reg_offset` in the
Stratix 10 build (`s10`), `reg_offset` otherwise (lines 421-425, 443-447). -/
def ctrl_reg (s10 : Bool) (dwmac : socfpga_dwmac) : Nat :=
  if s10 then (dwmac.sysmgr_reg + dwmac.reg_offset) % 2 ^ 32 else dwmac.reg_offset

/-- Lines 426-427: the mode field of `ctrl` is cleared and `val` is put in. -/
def ctrl_physel (ctrl val reg_shift : Nat) : Nat :=
  (ctrl &&& not32 (shl32 SYSMGR_EMACGRP_CTRL_PHYSEL_MASK reg_shift)) ||| shl32 val reg_shift

/-- The value of `ctrl` at the write-back of lines 443-447, from the value
read at lines 421-425: the mode field is replaced, then the PTP reference
clock bit is set (line 433) or cleared (line 440). -/
def ctrl_update (ctrl val reg_shift : Nat) (ptp : Bool) : Nat :=
  if ptp then
    ctrl_physel ctrl val reg_shift ||| shl32 SYSMGR_EMACGRP_CTRL_PTP_REF_CLK_MASK (reg_shift / 2)
  else
    ctrl_physel ctrl val reg_shift &&&
      not32 (shl32 SYSMGR_EMACGRP_CTRL_PTP_REF_CLK_MASK (reg_shift / 2))

/-- The function `socfpga_dwmac_set_phy_mode`: the status returned and the
hardware state on return. `s10` selects the Stratix 10 build. No status of a
reset or regmap call is looked at. -/
def socfpga_dwmac_set_phy_mode {σ π : Type} (E : PhyModes) (s10 : Bool) (m : regmap σ)
    (P : tse_pcs_ops π) (dwmac : socfpga_dwmac) (st : Hw σ π) : Int × Hw σ π :=
  match physel_val E dwmac with
  | none => (-EINVAL, st)
  | some val =>
    let st1 := reset_control_assert dwmac.stmmac_ocp_rst st
    let st2 := reset_control_assert dwmac.stmmac_rst st1
    let rd := regmap_read m (ctrl_reg s10 dwmac) st2
    let ctrl := ctrl_update rd.2.1 val dwmac.reg_shift (ptp_ref_clk E dwmac)
    let st3 :=
      if ptp_ref_clk E dwmac then
        let rdm := regmap_read m SYSMGR_FPGAGRP_MODULE_REG rd.2.2
        let module := rdm.2.1 ||| shl32 SYSMGR_FPGAGRP_MODULE_EMAC (dwmac.reg_shift / 2)
        (regmap_write m SYSMGR_FPGAGRP_MODULE_REG module rdm.2.2).2
      else rd.2.2
    let st4 := (regmap_write m (ctrl_reg s10 dwmac) ctrl st3).2
    let st5 := reset_control_deassert dwmac.stmmac_ocp_rst st4
    let st6 := reset_control_deassert dwmac.stmmac_rst st5
    if dwmac.interface = E.PHY_INTERFACE_MODE_SGMII then
      let r := tse_pcs_init P dwmac.pcs st6
      if r.1 ≠ 0 then (-EINVAL, r.2) else (0, r.2)
    else (0, st6)

/-! ## Concrete inputs -/

/-- One numbering of the enumerators: MII, GMII, SGMII, RGMII, RGMII_ID. -/
def phy_modes : PhyModes := ⟨1, 2, 3, 7, 8⟩

/-- A secure monitor that knows neither register call: every SMC returns
`INTEL_SIP_SMC_RETURN_UNKNOWN_FUNCTION` and changes nothing. -/
def smc_unknown (s : Nat → Nat) (_fn _reg _val : Nat) : arm_smccc_res × (Nat → Nat) :=
  (⟨INTEL_SIP_SMC_RETURN_UNKNOWN_FUNCTION, 0⟩, s)

/-- A PCS whose initialisation succeeds and whose calls change nothing. -/
def pcs_ok : tse_pcs_ops Unit := ⟨fun _ s => (0, s), fun _ _ s => s⟩

/-- A PCS whose initialisation fails with status `-1`. -/
def pcs_fail : tse_pcs_ops Unit := ⟨fun _ s => (-1, s), fun _ _ s => s⟩

/-- A power-on state: both reset lines released, every register zero. -/
def hw0 : Hw (Nat → Nat) Unit := ⟨fun _ => false, fun _ => 0, fun _ => 0, fun _ => 0, (), []⟩

/-- A state whose control register at offset `0x60` and splitter control
register hold `0xFFFFFFFF`. -/
def hw_ones : Hw (Nat → Nat) Unit :=
  ⟨fun _ => false, fun r => if r = 0x60 then 0xFFFFFFFF else 0, fun _ => 0xFFFFFFFF, fun _ => 0, (), []⟩

/-- A device in the given mode at `reg_offset = 0x60` with the given shift:
interconnect reset on line 0, core reset on line 1, with or without a
splitter, adapter and PCS mapped. -/
def dwmac_of (mode : Int) (shift : Nat) (splitter ptp : Bool) : socfpga_dwmac :=
  ⟨mode, 0x60, shift, 0, some 1, some 0, splitter, ptp, ⟨true, true⟩⟩

/-! ## Observations on traces and modes -/

/-- The modes the `switch (phymode)` has a case for. -/
def supported_mode (E : PhyModes) (phymode : Int) : Prop :=
  phymode = E.PHY_INTERFACE_MODE_RGMII ∨ phymode = E.PHY_INTERFACE_MODE_RGMII_ID ∨
    phymode = E.PHY_INTERFACE_MODE_MII ∨ phymode = E.PHY_INTERFACE_MODE_GMII ∨
    phymode = E.PHY_INTERFACE_MODE_SGMII

instance (E : PhyModes) (phymode : Int) : Decidable (supported_mode E phymode) :=
  inferInstanceAs (Decidable (phymode = E.PHY_INTERFACE_MODE_RGMII ∨
    phymode = E.PHY_INTERFACE_MODE_RGMII_ID ∨ phymode = E.PHY_INTERFACE_MODE_MII ∨
    phymode = E.PHY_INTERFACE_MODE_GMII ∨ phymode = E.PHY_INTERFACE_MODE_SGMII))

/-- Whether a call asserts or deasserts a reset line. -/
def Event.is_reset : Event → Bool
  | .reset_control_assert _ => true
  | .reset_control_deassert _ => true
  | _ => false

/-- Whether a call reads or writes a register through the regmap. -/
def Event.is_reg_access : Event → Bool
  | .regmap_read _ _ _ => true
  | .regmap_write _ _ _ => true
  | _ => false

/-- The value a call writes to register `reg`, if it is such a write. -/
def Event.write_to (reg : Nat) : Event → Option Nat
  | .regmap_write r v _ => if r = reg then some v else none
  | _ => none

/-- The value a call stores in the splitter control register, if it is such
a store. -/
def Event.splitter_store : Event → Option Nat
  | .splitter_writel v off => if off = EMAC_SPLITTER_CTRL_REG then some v else none
  | _ => none

/-- Whether a call is the PCS speed retune. -/
def Event.is_retune : Event → Bool
  | .tse_pcs_fix_mac_speed _ => true
  | _ => false

/-- The value of the last `regmap_write` to `reg` in a trace. -/
def last_regmap_write (reg : Nat) (t : List Event) : Option Nat :=
  t.reverse.findSome? (Event.write_to reg)

/-- The value the control register read of lines 421-425 leaves in `ctrl`
when `socfpga_dwmac_set_phy_mode` is entered in state `st`. -/
def ctrl_initial {σ π : Type} (s10 : Bool) (m : regmap σ) (dwmac : socfpga_dwmac)
    (st : Hw σ π) : Nat :=
  (m.reg_read st.sysmgr (ctrl_reg s10 dwmac)).2.1 % 2 ^ 32

/-! # Theorems -/

/-! ## 32-bit arithmetic, bit by bit -/

theorem testBit_not32 (x i : Nat) :
    (not32 x).testBit i = (decide (i < 32) && !x.testBit i) := by
  unfold not32
  rw [Nat.testBit_two_pow_sub_succ (Nat.mod_lt _ (by norm_num)), Nat.testBit_mod_two_pow]
  by_cases h : i < 32 <;> simp [h]

theorem testBit_shl32 (x s i : Nat) :
    (shl32 x s).testBit i = (decide (i < 32) && (decide (s ≤ i) && x.testBit (i - s))) := by
  unfold shl32
  rw [Nat.testBit_mod_two_pow, Nat.testBit_shiftLeft]

theorem testBit_three (j : Nat) : Nat.testBit 3 j = decide (j < 2) := by
  have h : (3 : Nat) = 2 ^ 2 - 1 := by norm_num
  rw [h, Nat.testBit_two_pow_sub_one]

theorem testBit_sixteen (j : Nat) : Nat.testBit 16 j = decide (j = 4) := by
  have h : (16 : Nat) = 2 ^ 4 := by norm_num
  rw [h, Nat.testBit_two_pow]
  by_cases h4 : j = 4 <;> simp [h4, eq_comm]

theorem testBit_lt_four (val : Nat) (hv : val < 4) (j : Nat) (hj : 2 ≤ j) :
    val.testBit j = false := by
  apply Nat.testBit_eq_false_of_lt
  calc val < 4 := hv
    _ = 2 ^ 2 := by norm_num
    _ ≤ 2 ^ j := Nat.pow_le_pow_right (by norm_num) hj

/-- The read-modify-write of lines 426-441 leaves every bit outside the
mode field and the PTP clock bit as it was read. -/
theorem ctrl_update_frame (c val s : Nat) (ptp : Bool) (hv : val < 4) :
    ctrl_update c val s ptp &&& not32 (shl32 0x3 s ||| shl32 0x10 (s / 2)) =
      c &&& not32 (shl32 0x3 s ||| shl32 0x10 (s / 2)) := by
  apply Nat.eq_of_testBit_eq
  intro i
  cases ptp <;>
  simp only [ctrl_update, ctrl_physel, SYSMGR_EMACGRP_CTRL_PHYSEL_MASK,
    SYSMGR_EMACGRP_CTRL_PTP_REF_CLK_MASK, Nat.testBit_and, Nat.testBit_or, testBit_not32,
    testBit_shl32, testBit_three, testBit_sixteen, if_true, if_false, Bool.false_eq_true] <;>
  by_cases h1 : i < 32 <;> by_cases h2 : s ≤ i <;> by_cases h3 : i - s < 2 <;>
  by_cases h4 : s / 2 ≤ i <;> by_cases h5 : i - s / 2 = 4 <;>
  simp [h1, h2, h3, h4, h5] <;>
  (try (rw [testBit_lt_four val hv (i - s) (by omega)])) <;> simp

/-- When the PTP clock bit lies outside the mode field, the mode field of
the value written back holds `val`. -/
theorem ctrl_update_field (c val s : Nat) (ptp : Bool) (hv : val < 4) (hs : s ≤ 30)
    (h : s ≤ 4 ∨ 9 ≤ s) :
    (ctrl_update c val s ptp >>> s) &&& 0x3 = val := by
  apply Nat.eq_of_testBit_eq
  intro j
  rw [Nat.testBit_and, Nat.testBit_shiftRight, testBit_three]
  by_cases hj : j < 2
  · cases ptp <;>
    simp only [ctrl_update, ctrl_physel, SYSMGR_EMACGRP_CTRL_PHYSEL_MASK,
      SYSMGR_EMACGRP_CTRL_PTP_REF_CLK_MASK, Nat.testBit_and, Nat.testBit_or, testBit_not32,
      testBit_shl32, testBit_three, testBit_sixteen, if_true, if_false, Bool.false_eq_true] <;>
    by_cases h4 : s / 2 ≤ s + j <;> by_cases h5 : s + j - s / 2 = 4 <;>
    simp [hj, h4, h5, show s + j < 32 by omega] <;> omega
  · simp [hj, testBit_lt_four val hv j (by omega)]

/-- The mode step of lines 426-427 puts `val` in the mode field. -/
theorem ctrl_physel_field (c val s : Nat) (hv : val < 4) (hs : s ≤ 30) :
    (ctrl_physel c val s >>> s) &&& 0x3 = val := by
  apply Nat.eq_of_testBit_eq
  intro j
  rw [Nat.testBit_and, Nat.testBit_shiftRight, testBit_three]
  by_cases hj : j < 2
  · simp only [ctrl_physel, SYSMGR_EMACGRP_CTRL_PHYSEL_MASK, Nat.testBit_and, Nat.testBit_or,
      testBit_not32, testBit_shl32, testBit_three]
    simp [hj, show s + j < 32 by omega]
  · simp [hj, testBit_lt_four val hv j (by omega)]

/-- With 0 put in the mode field, each of its two bits in the value
written back is 0 unless it is the PTP clock bit and that bit is set. -/
theorem ctrl_update_zero_bits (c s : Nat) (ptp : Bool) (j : Nat) (hs : s ≤ 30) (hj : j < 2) :
    (ctrl_update c 0x0 s ptp).testBit (s + j) = (ptp && decide (s + j = 4 + s / 2)) := by
  cases ptp <;>
  simp only [ctrl_update, ctrl_physel, SYSMGR_EMACGRP_CTRL_PHYSEL_MASK,
    SYSMGR_EMACGRP_CTRL_PTP_REF_CLK_MASK, Nat.testBit_and, Nat.testBit_or, testBit_not32,
    testBit_shl32, testBit_three, testBit_sixteen, if_true, if_false, Bool.false_eq_true,
    Nat.zero_testBit] <;>
  by_cases h4 : s / 2 ≤ s + j <;> by_cases h5 : s + j - s / 2 = 4 <;>
  simp [hj, h4, h5, show s + j < 32 by omega] <;> omega

/-- The condition of lines 429-432, as a proposition. -/
theorem ptp_ref_clk_iff (E : PhyModes) (dwmac : socfpga_dwmac) :
    ptp_ref_clk E dwmac = true ↔
      (dwmac.f2h_ptp_ref_clk = true ∨ dwmac.interface = E.PHY_INTERFACE_MODE_MII ∨
        dwmac.interface = E.PHY_INTERFACE_MODE_GMII ∨
        dwmac.interface = E.PHY_INTERFACE_MODE_SGMII) := by
  simp [ptp_ref_clk, or_assoc]

theorem ptp_ref_clk_false (E : PhyModes) (dwmac : socfpga_dwmac)
    (h : ¬ (dwmac.f2h_ptp_ref_clk = true ∨ dwmac.interface = E.PHY_INTERFACE_MODE_MII ∨
        dwmac.interface = E.PHY_INTERFACE_MODE_GMII ∨
        dwmac.interface = E.PHY_INTERFACE_MODE_SGMII)) :
    ptp_ref_clk E dwmac = false := by
  cases hb : ptp_ref_clk E dwmac
  · rfl
  · exact absurd ((ptp_ref_clk_iff E dwmac).1 hb) h

theorem physel_val_none {E : PhyModes} {dwmac : socfpga_dwmac}
    (h : ¬ supported_mode E dwmac.interface) : physel_val E dwmac = none := by
  unfold supported_mode at h
  simp only [not_or] at h
  simp [physel_val, phymode_physel, h]

theorem physel_val_some {E : PhyModes} {dwmac : socfpga_dwmac}
    (h : supported_mode E dwmac.interface) :
    physel_val E dwmac = some
      (if (dwmac.interface = E.PHY_INTERFACE_MODE_RGMII ∨
            dwmac.interface = E.PHY_INTERFACE_MODE_RGMII_ID) ∧ dwmac.splitter_base = false
        then SYSMGR_EMACGRP_CTRL_PHYSEL_ENUM_RGMII
        else SYSMGR_EMACGRP_CTRL_PHYSEL_ENUM_GMII_MII) := by
  unfold supported_mode at h
  by_cases hr : dwmac.interface = E.PHY_INTERFACE_MODE_RGMII ∨
      dwmac.interface = E.PHY_INTERFACE_MODE_RGMII_ID
  · cases hb : dwmac.splitter_base <;> simp [physel_val, phymode_physel, hr, hb]
  · have hm : dwmac.interface = E.PHY_INTERFACE_MODE_MII ∨
        dwmac.interface = E.PHY_INTERFACE_MODE_GMII ∨
        dwmac.interface = E.PHY_INTERFACE_MODE_SGMII := by
      rcases h with h | h | h
      · exact absurd (Or.inl h) hr
      · exact absurd (Or.inr h) hr
      · exact h
    simp [physel_val, phymode_physel, hr, hm]

theorem physel_val_lt_four {E : PhyModes} {dwmac : socfpga_dwmac} {val : Nat}
    (h : physel_val E dwmac = some val) : val < 4 := by
  unfold physel_val phymode_physel at h
  split_ifs at h <;> simp at h <;> subst h <;>
    simp [SYSMGR_EMACGRP_CTRL_PHYSEL_ENUM_GMII_MII, SYSMGR_EMACGRP_CTRL_PHYSEL_ENUM_RGMII]

/-! ### What each primitive leaves unchanged -/

@[simp] theorem reset_control_assert_trace {σ π : Type} (r : Option Nat) (s : Hw σ π) :
    (reset_control_assert r s).trace = s.trace ++ [Event.reset_control_assert r] := by
  cases r <;> rfl

@[simp] theorem reset_control_assert_sysmgr {σ π : Type} (r : Option Nat) (s : Hw σ π) :
    (reset_control_assert r s).sysmgr = s.sysmgr := by
  cases r <;> rfl

@[simp] theorem reset_control_assert_adapter {σ π : Type} (r : Option Nat) (s : Hw σ π) :
    (reset_control_assert r s).sgmii_adapter = s.sgmii_adapter := by
  cases r <;> rfl

@[simp] theorem reset_control_assert_pcs_block {σ π : Type} (r : Option Nat) (s : Hw σ π) :
    (reset_control_assert r s).pcs_block = s.pcs_block := by
  cases r <;> rfl

@[simp] theorem reset_control_deassert_trace {σ π : Type} (r : Option Nat) (s : Hw σ π) :
    (reset_control_deassert r s).trace = s.trace ++ [Event.reset_control_deassert r] := by
  cases r <;> rfl

@[simp] theorem reset_control_deassert_adapter {σ π : Type} (r : Option Nat) (s : Hw σ π) :
    (reset_control_deassert r s).sgmii_adapter = s.sgmii_adapter := by
  cases r <;> rfl

@[simp] theorem reset_control_deassert_pcs_block {σ π : Type} (r : Option Nat) (s : Hw σ π) :
    (reset_control_deassert r s).pcs_block = s.pcs_block := by
  cases r <;> rfl

theorem reset_control_deassert_released {σ π : Type} (n : Nat) (s : Hw σ π) :
    (reset_control_deassert (some n) s).reset_asserted n = false := by
  simp [reset_control_deassert, Hw.log]

theorem reset_control_deassert_keeps_released {σ π : Type} (r : Option Nat) (n : Nat)
    (s : Hw σ π) (h : s.reset_asserted n = false) :
    (reset_control_deassert r s).reset_asserted n = false := by
  cases r with
  | none => simpa [reset_control_deassert, Hw.log] using h
  | some k =>
    by_cases hk : n = k
    · subst hk; exact reset_control_deassert_released n s
    · simpa [reset_control_deassert, Hw.log, Function.update_apply, hk] using h

@[simp] theorem regmap_read_trace {σ π : Type} (m : regmap σ) (reg : Nat) (s : Hw σ π) :
    (regmap_read m reg s).2.2.trace =
      s.trace ++ [Event.regmap_read reg (regmap_read m reg s).2.1 (regmap_read m reg s).1] := rfl

@[simp] theorem regmap_read_adapter {σ π : Type} (m : regmap σ) (reg : Nat) (s : Hw σ π) :
    (regmap_read m reg s).2.2.sgmii_adapter = s.sgmii_adapter := rfl

@[simp] theorem regmap_read_pcs_block {σ π : Type} (m : regmap σ) (reg : Nat) (s : Hw σ π) :
    (regmap_read m reg s).2.2.pcs_block = s.pcs_block := rfl

@[simp] theorem regmap_write_trace {σ π : Type} (m : regmap σ) (reg val : Nat) (s : Hw σ π) :
    (regmap_write m reg val s).2.trace =
      s.trace ++ [Event.regmap_write reg val (regmap_write m reg val s).1] := rfl

@[simp] theorem regmap_write_adapter {σ π : Type} (m : regmap σ) (reg val : Nat) (s : Hw σ π) :
    (regmap_write m reg val s).2.sgmii_adapter = s.sgmii_adapter := rfl

@[simp] theorem regmap_write_pcs_block {σ π : Type} (m : regmap σ) (reg val : Nat) (s : Hw σ π) :
    (regmap_write m reg val s).2.pcs_block = s.pcs_block := rfl

@[simp] theorem tse_pcs_init_trace {σ π : Type} (P : tse_pcs_ops π) (pcs : tse_pcs) (s : Hw σ π) :
    (tse_pcs_init P pcs s).2.trace = s.trace ++ [Event.tse_pcs_init (tse_pcs_init P pcs s).1] := rfl

@[simp] theorem tse_pcs_init_reset_asserted {σ π : Type} (P : tse_pcs_ops π) (pcs : tse_pcs)
    (s : Hw σ π) : (tse_pcs_init P pcs s).2.reset_asserted = s.reset_asserted := rfl

theorem tse_pcs_init_status {σ π : Type} (P : tse_pcs_ops π) (pcs : tse_pcs) (s : Hw σ π) :
    (tse_pcs_init P pcs s).1 = (P.tse_pcs_init pcs (s.sgmii_adapter, s.pcs_block)).1 := rfl

theorem regmap_read_after_assert {σ π : Type} (m : regmap σ) (reg : Nat) (r : Option Nat)
    (s : Hw σ π) :
    (regmap_read m reg (reset_control_assert r s)).2.1 = (regmap_read m reg s).2.1 := by
  simp [regmap_read]

theorem ctrl_initial_eq {σ π : Type} (s10 : Bool) (m : regmap σ) (dwmac : socfpga_dwmac)
    (st : Hw σ π) :
    ctrl_initial s10 m dwmac st = (regmap_read m (ctrl_reg s10 dwmac) st).2.1 := rfl

theorem ite_pair_snd {α β : Type} (c : Prop) [Decidable c] (a b : α) (x : β) :
    (if c then (a, x) else (b, x)).2 = x := by
  split_ifs <;> rfl

/-- The calls `socfpga_dwmac_set_phy_mode` makes in a supported mode, in
order: the two asserts, the control register read, the module register
read-modify-write when the PTP clock is needed, the control register
write-back, the two deasserts, and the PCS initialisation in SGMII mode. -/
theorem set_phy_mode_trace {σ π : Type} (E : PhyModes) (s10 : Bool) (m : regmap σ)
    (P : tse_pcs_ops π) (dwmac : socfpga_dwmac) (st : Hw σ π) (val : Nat)
    (h : physel_val E dwmac = some val) :
    ∃ (rs ws : Int) (mods post : List Event),
      (socfpga_dwmac_set_phy_mode E s10 m P dwmac st).2.trace =
        st.trace ++
          [Event.reset_control_assert dwmac.stmmac_ocp_rst,
           Event.reset_control_assert dwmac.stmmac_rst,
           Event.regmap_read (ctrl_reg s10 dwmac) (ctrl_initial s10 m dwmac st) rs] ++
          mods ++
          [Event.regmap_write (ctrl_reg s10 dwmac)
             (ctrl_update (ctrl_initial s10 m dwmac st) val dwmac.reg_shift (ptp_ref_clk E dwmac)) ws,
           Event.reset_control_deassert dwmac.stmmac_ocp_rst,
           Event.reset_control_deassert dwmac.stmmac_rst] ++
          post ∧
      ((ptp_ref_clk E dwmac = false ∧ mods = []) ∨
        (ptp_ref_clk E dwmac = true ∧ ∃ mv ms mw, mods =
          [Event.regmap_read SYSMGR_FPGAGRP_MODULE_REG mv ms,
           Event.regmap_write SYSMGR_FPGAGRP_MODULE_REG
             (mv ||| shl32 SYSMGR_FPGAGRP_MODULE_EMAC (dwmac.reg_shift / 2)) mw])) ∧
      ((dwmac.interface ≠ E.PHY_INTERFACE_MODE_SGMII ∧ post = []) ∨
        (dwmac.interface = E.PHY_INTERFACE_MODE_SGMII ∧ post =
          [Event.tse_pcs_init (P.tse_pcs_init dwmac.pcs (st.sgmii_adapter, st.pcs_block)).1])) := by
  unfold socfpga_dwmac_set_phy_mode
  rw [h]
  by_cases hp : ptp_ref_clk E dwmac = true <;>
  by_cases hsg : dwmac.interface = E.PHY_INTERFACE_MODE_SGMII <;>
  simp only [hp, hsg, if_true, if_false, ite_pair_snd, reset_control_assert_trace,
    reset_control_deassert_trace, regmap_read_trace, regmap_write_trace, tse_pcs_init_trace,
    regmap_read_after_assert, ctrl_initial_eq, List.append_assoc, List.cons_append,
    List.nil_append, Bool.false_eq_true, tse_pcs_init_status, reset_control_assert_adapter,
    reset_control_assert_pcs_block, reset_control_deassert_adapter,
    reset_control_deassert_pcs_block, regmap_read_adapter, regmap_read_pcs_block,
    regmap_write_adapter, regmap_write_pcs_block]
  · exact ⟨_, _, _, _, rfl, Or.inr ⟨trivial, _, _, _, rfl⟩, Or.inr ⟨trivial, rfl⟩⟩
  · exact ⟨_, _, _, [], rfl, Or.inr ⟨trivial, _, _, _, rfl⟩, Or.inl ⟨hsg, rfl⟩⟩
  · exact ⟨_, _, [], _, rfl, Or.inl ⟨trivial, rfl⟩, Or.inr ⟨trivial, rfl⟩⟩
  · exact ⟨_, _, [], [], rfl, Or.inl ⟨trivial, rfl⟩, Or.inl ⟨hsg, rfl⟩⟩

theorem set_phy_mode_written {σ π : Type} (E : PhyModes) (s10 : Bool) (m : regmap σ)
    (P : tse_pcs_ops π) (dwmac : socfpga_dwmac) (st : Hw σ π) (val : Nat)
    (h : physel_val E dwmac = some val) :
    last_regmap_write (ctrl_reg s10 dwmac)
        (socfpga_dwmac_set_phy_mode E s10 m P dwmac st).2.trace =
      some (ctrl_update (ctrl_initial s10 m dwmac st) val dwmac.reg_shift (ptp_ref_clk E dwmac)) := by
  obtain ⟨rs, ws, mods, post, ht, -, hpost⟩ := set_phy_mode_trace E s10 m P dwmac st val h
  rw [ht]
  rcases hpost with ⟨-, rfl⟩ | ⟨-, rfl⟩ <;>
  simp [last_regmap_write, List.reverse_append, Event.write_to]

theorem set_phy_mode_ret {σ π : Type} (E : PhyModes) (s10 : Bool) (m : regmap σ)
    (P : tse_pcs_ops π) (dwmac : socfpga_dwmac) (st : Hw σ π) (val : Nat)
    (h : physel_val E dwmac = some val) :
    (socfpga_dwmac_set_phy_mode E s10 m P dwmac st).1 =
      if dwmac.interface = E.PHY_INTERFACE_MODE_SGMII ∧
          (P.tse_pcs_init dwmac.pcs (st.sgmii_adapter, st.pcs_block)).1 ≠ 0
        then -EINVAL else 0 := by
  unfold socfpga_dwmac_set_phy_mode
  rw [h]
  by_cases hsg : dwmac.interface = E.PHY_INTERFACE_MODE_SGMII
  · by_cases hp : ptp_ref_clk E dwmac = true <;>
    by_cases hr : (P.tse_pcs_init dwmac.pcs (st.sgmii_adapter, st.pcs_block)).1 = 0 <;>
    simp [hsg, hp, hr, tse_pcs_init_status]
  · simp [hsg]

theorem set_phy_mode_released {σ π : Type} (E : PhyModes) (s10 : Bool) (m : regmap σ)
    (P : tse_pcs_ops π) (dwmac : socfpga_dwmac) (st : Hw σ π) (val : Nat)
    (h : physel_val E dwmac = some val) (n : Nat)
    (hn : dwmac.stmmac_ocp_rst = some n ∨ dwmac.stmmac_rst = some n) :
    (socfpga_dwmac_set_phy_mode E s10 m P dwmac st).2.reset_asserted n = false := by
  have key : ∀ s : Hw σ π, (reset_control_deassert dwmac.stmmac_rst
      (reset_control_deassert dwmac.stmmac_ocp_rst s)).reset_asserted n = false := by
    intro s
    rcases hn with hn | hn
    · apply reset_control_deassert_keeps_released
      rw [hn]
      exact reset_control_deassert_released n s
    · rw [hn]
      exact reset_control_deassert_released n _
  unfold socfpga_dwmac_set_phy_mode
  rw [h]
  by_cases hsg : dwmac.interface = E.PHY_INTERFACE_MODE_SGMII
  · simp only [hsg, if_true, ite_pair_snd, tse_pcs_init_reset_asserted]
    exact key _
  · simp only [hsg, if_false]
    exact key _

/-! ## The speed-switch handler -/

theorem adapter_writew_trace {σ π : Type} (val off : Nat) (s : Hw σ π) :
    (adapter_writew val off s).trace = s.trace ++ [Event.adapter_writew val off] := rfl

theorem adapter_writew_splitter {σ π : Type} (val off : Nat) (s : Hw σ π) :
    (adapter_writew val off s).splitter = s.splitter := rfl

theorem splitter_readl_val {σ π : Type} (off : Nat) (s : Hw σ π) :
    (splitter_readl off s).1 = s.splitter off % 2 ^ 32 := rfl

theorem splitter_readl_trace {σ π : Type} (off : Nat) (s : Hw σ π) :
    (splitter_readl off s).2.trace =
      s.trace ++ [Event.splitter_readl off (s.splitter off % 2 ^ 32)] := rfl

theorem splitter_readl_splitter {σ π : Type} (off : Nat) (s : Hw σ π) :
    (splitter_readl off s).2.splitter = s.splitter := rfl

theorem splitter_writel_trace {σ π : Type} (val off : Nat) (s : Hw σ π) :
    (splitter_writel val off s).trace = s.trace ++ [Event.splitter_writel val off] := rfl

theorem splitter_writel_splitter {σ π : Type} (val off : Nat) (s : Hw σ π) :
    (splitter_writel val off s).splitter off = val % 2 ^ 32 := by
  simp [splitter_writel]

theorem tse_pcs_fix_mac_speed_trace {σ π : Type} (P : tse_pcs_ops π) (pcs : tse_pcs)
    (speed : Nat) (s : Hw σ π) :
    (tse_pcs_fix_mac_speed P pcs speed s).trace =
      s.trace ++ [Event.tse_pcs_fix_mac_speed speed] := rfl

theorem tse_pcs_fix_mac_speed_splitter {σ π : Type} (P : tse_pcs_ops π) (pcs : tse_pcs)
    (speed : Nat) (s : Hw σ π) :
    (tse_pcs_fix_mac_speed P pcs speed s).splitter = s.splitter := rfl

theorem splitter_field_lt (v e : Nat) (he : e < 4) :
    (v % 2 ^ 32 &&& not32 EMAC_SPLITTER_CTRL_SPEED_MASK) ||| e < 2 ^ 32 := by
  apply Nat.or_lt_two_pow
  · exact lt_of_le_of_lt Nat.and_le_left (Nat.mod_lt _ (by norm_num))
  · exact lt_trans he (by norm_num)

/-- With a splitter mapped and a speed the switch has a case for, the only
store to the splitter is the read-modify-write of the speed field. -/
theorem fix_mac_speed_splitter_some {σ π : Type} (P : tse_pcs_ops π) (dwmac : socfpga_dwmac)
    (speed e : Nat) (st : Hw σ π) (hs : dwmac.splitter_base = true)
    (he : splitter_speed speed = some e) (he4 : e < 4) :
    (∃ t, (socfpga_dwmac_fix_mac_speed P dwmac speed st).trace = st.trace ++ t ∧
      t.filterMap Event.splitter_store =
        [(st.splitter EMAC_SPLITTER_CTRL_REG % 2 ^ 32 &&& not32 EMAC_SPLITTER_CTRL_SPEED_MASK)
          ||| e]) ∧
    (socfpga_dwmac_fix_mac_speed P dwmac speed st).splitter EMAC_SPLITTER_CTRL_REG =
      (st.splitter EMAC_SPLITTER_CTRL_REG % 2 ^ 32 &&& not32 EMAC_SPLITTER_CTRL_SPEED_MASK)
        ||| e := by
  have hlt := splitter_field_lt (st.splitter EMAC_SPLITTER_CTRL_REG) e he4
  unfold socfpga_dwmac_fix_mac_speed
  simp only [hs, if_true, he]
  by_cases hp : (dwmac.pcs.tse_pcs_base && dwmac.pcs.sgmii_adapter_base) = true
  · simp only [hp, if_true, tse_pcs_fix_mac_speed_trace, tse_pcs_fix_mac_speed_splitter,
      splitter_writel_trace, splitter_writel_splitter, splitter_readl_trace, splitter_readl_val,
      splitter_readl_splitter, adapter_writew_trace, adapter_writew_splitter,
      List.append_assoc, List.cons_append, List.nil_append]
    exact ⟨⟨_, rfl, by simp [Event.splitter_store]⟩, Nat.mod_eq_of_lt hlt⟩
  · simp only [hp, if_false, tse_pcs_fix_mac_speed_trace, tse_pcs_fix_mac_speed_splitter,
      splitter_writel_trace, splitter_writel_splitter, splitter_readl_trace, splitter_readl_val,
      splitter_readl_splitter, adapter_writew_trace, adapter_writew_splitter,
      List.append_assoc, List.cons_append, List.nil_append, Bool.false_eq_true]
    exact ⟨⟨_, rfl, by simp [Event.splitter_store]⟩, Nat.mod_eq_of_lt hlt⟩

/-- With a splitter mapped and any other speed, the function returns from
the `default:` branch: nothing is stored in the splitter and the PCS retune
is not reached. -/
theorem fix_mac_speed_splitter_none {σ π : Type} (P : tse_pcs_ops π) (dwmac : socfpga_dwmac)
    (speed : Nat) (st : Hw σ π) (hs : dwmac.splitter_base = true)
    (he : splitter_speed speed = none) :
    (∃ t, (socfpga_dwmac_fix_mac_speed P dwmac speed st).trace = st.trace ++ t ∧
      t.filterMap Event.splitter_store = [] ∧ t.filter Event.is_retune = []) ∧
    (socfpga_dwmac_fix_mac_speed P dwmac speed st).splitter = st.splitter := by
  unfold socfpga_dwmac_fix_mac_speed
  simp only [hs, if_true, he]
  by_cases hp : (dwmac.pcs.tse_pcs_base && dwmac.pcs.sgmii_adapter_base) = true
  · simp only [hp, if_true, splitter_readl_trace, splitter_readl_splitter, adapter_writew_trace,
      adapter_writew_splitter, List.append_assoc, List.cons_append, List.nil_append]
    exact ⟨⟨_, rfl, by simp [Event.splitter_store], by simp [Event.is_retune]⟩, trivial⟩
  · simp only [hp, if_false, splitter_readl_trace, splitter_readl_splitter,
      List.append_assoc, List.cons_append, List.nil_append, Bool.false_eq_true]
    exact ⟨⟨_, rfl, by simp [Event.splitter_store], by simp [Event.is_retune]⟩, trivial⟩

theorem splitter_speed_cases (speed : Nat) :
    (speed = 1000 → splitter_speed speed = some 0x0) ∧
    (speed = 100 → splitter_speed speed = some 0x3) ∧
    (speed = 10 → splitter_speed speed = some 0x2) ∧
    (speed ≠ 1000 → speed ≠ 100 → speed ≠ 10 → splitter_speed speed = none) := by
  refine ⟨?_, ?_, ?_, ?_⟩
  · rintro rfl; rfl
  · rintro rfl; rfl
  · rintro rfl; rfl
  · intro h1 h2 h3
    simp [splitter_speed, h1, h2, h3]

theorem splitter_field_high_bits (v e i : Nat) (hv : v < 2 ^ 32) (he : e < 4) (hi : 2 ≤ i) :
    ((v &&& not32 0x3) ||| e).testBit i = v.testBit i := by
  rw [Nat.testBit_or, Nat.testBit_and, testBit_not32, testBit_three,
    testBit_lt_four e he i hi]
  by_cases h32 : i < 32
  · simp [h32, show ¬ i < 2 by omega]
  · have : v.testBit i = false := by
      apply Nat.testBit_eq_false_of_lt
      exact lt_of_lt_of_le hv (Nat.pow_le_pow_right (by norm_num) (by omega))
    simp [h32, this]

/-! ## The PHY-mode programmer: claims -/

/-- C1: in a mode that is none of RGMII, RGMII_ID, MII, GMII, SGMII (with or
without a splitter, for every PTP flag, register port and hardware state)
`socfpga_dwmac_set_phy_mode` returns the non-zero status `-EINVAL` and the
hardware state on return is the state on entry, its trace of calls
included: no reset call, no register access, no PCS initialisation. -/
theorem set_phy_mode_unsupported_mode_no_effect {σ π : Type} (E : PhyModes) (s10 : Bool)
    (m : regmap σ) (P : tse_pcs_ops π) (dwmac : socfpga_dwmac) (st : Hw σ π)
    (h : ¬ supported_mode E dwmac.interface) :
    socfpga_dwmac_set_phy_mode E s10 m P dwmac st = (-EINVAL, st) ∧
      (socfpga_dwmac_set_phy_mode E s10 m P dwmac st).1 ≠ 0 := by
  have hr : socfpga_dwmac_set_phy_mode E s10 m P dwmac st = (-EINVAL, st) := by
    unfold socfpga_dwmac_set_phy_mode
    rw [physel_val_none h]
  refine ⟨hr, ?_⟩
  rw [hr]
  show -EINVAL ≠ (0 : Int)
  decide

/-- C1 at a concrete input: RMII (6) is not a supported mode. -/
theorem set_phy_mode_unsupported_mode_no_effect_witness :
    ¬ supported_mode phy_modes (dwmac_of 6 0 true true).interface ∧
      (socfpga_dwmac_set_phy_mode phy_modes false mmio_regmap pcs_ok (dwmac_of 6 0 true true) hw_ones
          = (-EINVAL, hw_ones) ∧
        (socfpga_dwmac_set_phy_mode phy_modes false mmio_regmap pcs_ok
          (dwmac_of 6 0 true true) hw_ones).1 ≠ 0) :=
  ⟨by decide,
    set_phy_mode_unsupported_mode_no_effect phy_modes false mmio_regmap pcs_ok
      (dwmac_of 6 0 true true) hw_ones (by decide)⟩

/-- C2, as the claim states it, fails: with a secure monitor that answers
every register call with `INTEL_SIP_SMC_RETURN_UNKNOWN_FUNCTION`, in RGMII
mode, the failed read is followed by the write-back, both reset lines are
deasserted, and the call returns 0. -/
theorem set_phy_mode_failed_access_counterexample :
    (socfpga_dwmac_set_phy_mode phy_modes true (s10_emac_regmap smc_unknown) pcs_ok
        (dwmac_of 7 0 false false) hw0).1 = 0 ∧
      (socfpga_dwmac_set_phy_mode phy_modes true (s10_emac_regmap smc_unknown) pcs_ok
        (dwmac_of 7 0 false false) hw0).2.reset_asserted 0 = false ∧
      (socfpga_dwmac_set_phy_mode phy_modes true (s10_emac_regmap smc_unknown) pcs_ok
        (dwmac_of 7 0 false false) hw0).2.reset_asserted 1 = false ∧
      (socfpga_dwmac_set_phy_mode phy_modes true (s10_emac_regmap smc_unknown) pcs_ok
        (dwmac_of 7 0 false false) hw0).2.trace =
        [Event.reset_control_assert (some 0), Event.reset_control_assert (some 1),
         Event.regmap_read 0x60 0 (-1), Event.regmap_write 0x60 1 (-1),
         Event.reset_control_deassert (some 0), Event.reset_control_deassert (some 1)] := by
  refine ⟨?_, ?_, ?_, ?_⟩ <;> decide

/-- C2, amended: in every supported mode and for every register port,
whatever status its reads and writes return, the status is not looked at:
the control register write-back and both reset deasserts are performed,
every reset line the device holds is deasserted on return, and the status
returned is 0, or `-EINVAL` when the mode is SGMII and PCS initialisation
fails. -/
theorem set_phy_mode_access_status_not_checked {σ π : Type} (E : PhyModes) (s10 : Bool)
    (m : regmap σ) (P : tse_pcs_ops π) (dwmac : socfpga_dwmac) (st : Hw σ π)
    (h : supported_mode E dwmac.interface) :
    (∃ (pre post : List Event) (c : Nat) (ws : Int),
      (socfpga_dwmac_set_phy_mode E s10 m P dwmac st).2.trace =
        st.trace ++ pre ++
          [Event.regmap_write (ctrl_reg s10 dwmac) c ws,
           Event.reset_control_deassert dwmac.stmmac_ocp_rst,
           Event.reset_control_deassert dwmac.stmmac_rst] ++ post) ∧
    (∀ n, dwmac.stmmac_ocp_rst = some n ∨ dwmac.stmmac_rst = some n →
      (socfpga_dwmac_set_phy_mode E s10 m P dwmac st).2.reset_asserted n = false) ∧
    (socfpga_dwmac_set_phy_mode E s10 m P dwmac st).1 =
      (if dwmac.interface = E.PHY_INTERFACE_MODE_SGMII ∧
          (P.tse_pcs_init dwmac.pcs (st.sgmii_adapter, st.pcs_block)).1 ≠ 0
        then -EINVAL else 0) := by
  obtain ⟨v, hv⟩ : ∃ v, physel_val E dwmac = some v := ⟨_, physel_val_some h⟩
  refine ⟨?_, ?_, set_phy_mode_ret E s10 m P dwmac st _ hv⟩
  · obtain ⟨rs, ws, mods, post, ht, -, -⟩ := set_phy_mode_trace E s10 m P dwmac st _ hv
    exact ⟨[Event.reset_control_assert dwmac.stmmac_ocp_rst,
      Event.reset_control_assert dwmac.stmmac_rst,
      Event.regmap_read (ctrl_reg s10 dwmac) (ctrl_initial s10 m dwmac st) rs] ++ mods,
      post, ctrl_update (ctrl_initial s10 m dwmac st) v dwmac.reg_shift (ptp_ref_clk E dwmac), ws,
      by rw [ht]; simp only [List.append_assoc]⟩
  · intro n hn
    exact set_phy_mode_released E s10 m P dwmac st _ hv n hn

/-- C2, amended, at a concrete input: RGMII behind a secure monitor that
rejects every register call. -/
theorem set_phy_mode_access_status_not_checked_witness :
    supported_mode phy_modes (dwmac_of 7 0 false false).interface ∧
    ((∃ (pre post : List Event) (c : Nat) (ws : Int),
      (socfpga_dwmac_set_phy_mode phy_modes true (s10_emac_regmap smc_unknown) pcs_ok
          (dwmac_of 7 0 false false) hw0).2.trace =
        hw0.trace ++ pre ++
          [Event.regmap_write (ctrl_reg true (dwmac_of 7 0 false false)) c ws,
           Event.reset_control_deassert (dwmac_of 7 0 false false).stmmac_ocp_rst,
           Event.reset_control_deassert (dwmac_of 7 0 false false).stmmac_rst] ++ post) ∧
    (∀ n, (dwmac_of 7 0 false false).stmmac_ocp_rst = some n ∨
        (dwmac_of 7 0 false false).stmmac_rst = some n →
      (socfpga_dwmac_set_phy_mode phy_modes true (s10_emac_regmap smc_unknown) pcs_ok
          (dwmac_of 7 0 false false) hw0).2.reset_asserted n = false) ∧
    (socfpga_dwmac_set_phy_mode phy_modes true (s10_emac_regmap smc_unknown) pcs_ok
          (dwmac_of 7 0 false false) hw0).1 =
      (if (dwmac_of 7 0 false false).interface = phy_modes.PHY_INTERFACE_MODE_SGMII ∧
          (pcs_ok.tse_pcs_init (dwmac_of 7 0 false false).pcs
            (hw0.sgmii_adapter, hw0.pcs_block)).1 ≠ 0
        then -EINVAL else 0)) :=
  ⟨by decide,
    set_phy_mode_access_status_not_checked phy_modes true (s10_emac_regmap smc_unknown) pcs_ok
      (dwmac_of 7 0 false false) hw0 (by decide)⟩

/-- C3, as the claim states it, fails: in SGMII mode without a splitter,
with adapter and PCS mapped and a PCS initialisation that fails, the call
returns `-EINVAL` with both reset lines deasserted, the PCS initialisation
being the last call made, after both deasserts. -/
theorem set_phy_mode_pcs_failure_counterexample :
    (socfpga_dwmac_set_phy_mode phy_modes false mmio_regmap pcs_fail
        (dwmac_of 3 0 false false) hw0).1 = -EINVAL ∧
      (socfpga_dwmac_set_phy_mode phy_modes false mmio_regmap pcs_fail
        (dwmac_of 3 0 false false) hw0).2.reset_asserted 0 = false ∧
      (socfpga_dwmac_set_phy_mode phy_modes false mmio_regmap pcs_fail
        (dwmac_of 3 0 false false) hw0).2.reset_asserted 1 = false ∧
      (socfpga_dwmac_set_phy_mode phy_modes false mmio_regmap pcs_fail
        (dwmac_of 3 0 false false) hw0).2.trace =
        [Event.reset_control_assert (some 0), Event.reset_control_assert (some 1),
         Event.regmap_read 0x60 0 0, Event.regmap_read 0x28 0 0, Event.regmap_write 0x28 4 0,
         Event.regmap_write 0x60 0x10 0,
         Event.reset_control_deassert (some 0), Event.reset_control_deassert (some 1),
         Event.tse_pcs_init (-1)] := by
  refine ⟨?_, ?_, ?_, ?_⟩ <;> decide

/-- C3, amended: in SGMII mode (in particular without a splitter and with
adapter and PCS mapped) `socfpga_dwmac_set_phy_mode` returns 0 if and only
if `tse_pcs_init` returns 0; when `tse_pcs_init` fails the call returns
`-EINVAL` and every reset line the device holds is deasserted on return,
the PCS initialisation having run after both deasserts. -/
theorem set_phy_mode_sgmii_pcs_init {σ π : Type} (E : PhyModes) (s10 : Bool)
    (m : regmap σ) (P : tse_pcs_ops π) (dwmac : socfpga_dwmac) (st : Hw σ π)
    (h : dwmac.interface = E.PHY_INTERFACE_MODE_SGMII) :
    ((socfpga_dwmac_set_phy_mode E s10 m P dwmac st).1 = 0 ↔
      (P.tse_pcs_init dwmac.pcs (st.sgmii_adapter, st.pcs_block)).1 = 0) ∧
    ((P.tse_pcs_init dwmac.pcs (st.sgmii_adapter, st.pcs_block)).1 ≠ 0 →
      (socfpga_dwmac_set_phy_mode E s10 m P dwmac st).1 = -EINVAL ∧
      (∀ n, dwmac.stmmac_ocp_rst = some n ∨ dwmac.stmmac_rst = some n →
        (socfpga_dwmac_set_phy_mode E s10 m P dwmac st).2.reset_asserted n = false) ∧
      ∃ pre r, (socfpga_dwmac_set_phy_mode E s10 m P dwmac st).2.trace =
        st.trace ++ pre ++
          [Event.reset_control_deassert dwmac.stmmac_ocp_rst,
           Event.reset_control_deassert dwmac.stmmac_rst, Event.tse_pcs_init r]) := by
  have hsup : supported_mode E dwmac.interface := by
    unfold supported_mode
    exact Or.inr (Or.inr (Or.inr (Or.inr h)))
  obtain ⟨v, hv⟩ : ∃ v, physel_val E dwmac = some v := ⟨_, physel_val_some hsup⟩
  have hret := set_phy_mode_ret E s10 m P dwmac st _ hv
  have hne : -EINVAL ≠ (0 : Int) := by decide
  refine ⟨?_, ?_⟩
  · rw [hret]
    by_cases hr : (P.tse_pcs_init dwmac.pcs (st.sgmii_adapter, st.pcs_block)).1 = 0
    · simp [hr]
    · simp [hr, h, hne]
  · intro hr
    refine ⟨?_, ?_, ?_⟩
    · rw [hret]
      simp [hr, h]
    · intro n hn
      exact set_phy_mode_released E s10 m P dwmac st _ hv n hn
    · obtain ⟨rs, ws, mods, post, ht, -, hpost⟩ := set_phy_mode_trace E s10 m P dwmac st _ hv
      rcases hpost with ⟨hn, -⟩ | ⟨-, rfl⟩
      · exact absurd h hn
      · exact ⟨[Event.reset_control_assert dwmac.stmmac_ocp_rst,
          Event.reset_control_assert dwmac.stmmac_rst,
          Event.regmap_read (ctrl_reg s10 dwmac) (ctrl_initial s10 m dwmac st) rs] ++ mods ++
          [Event.regmap_write (ctrl_reg s10 dwmac)
            (ctrl_update (ctrl_initial s10 m dwmac st) v dwmac.reg_shift (ptp_ref_clk E dwmac)) ws],
          (P.tse_pcs_init dwmac.pcs (st.sgmii_adapter, st.pcs_block)).1,
          by rw [ht]; simp only [List.append_assoc, List.cons_append, List.nil_append]⟩

/-- C3, amended, at a concrete input: SGMII with a PCS initialisation that
fails. -/
theorem set_phy_mode_sgmii_pcs_init_witness :
    (dwmac_of 3 0 false false).interface = phy_modes.PHY_INTERFACE_MODE_SGMII ∧
    (((socfpga_dwmac_set_phy_mode phy_modes false mmio_regmap pcs_fail
          (dwmac_of 3 0 false false) hw0).1 = 0 ↔
      (pcs_fail.tse_pcs_init (dwmac_of 3 0 false false).pcs
        (hw0.sgmii_adapter, hw0.pcs_block)).1 = 0) ∧
    ((pcs_fail.tse_pcs_init (dwmac_of 3 0 false false).pcs
        (hw0.sgmii_adapter, hw0.pcs_block)).1 ≠ 0 →
      (socfpga_dwmac_set_phy_mode phy_modes false mmio_regmap pcs_fail
          (dwmac_of 3 0 false false) hw0).1 = -EINVAL ∧
      (∀ n, (dwmac_of 3 0 false false).stmmac_ocp_rst = some n ∨
          (dwmac_of 3 0 false false).stmmac_rst = some n →
        (socfpga_dwmac_set_phy_mode phy_modes false mmio_regmap pcs_fail
          (dwmac_of 3 0 false false) hw0).2.reset_asserted n = false) ∧
      ∃ pre r, (socfpga_dwmac_set_phy_mode phy_modes false mmio_regmap pcs_fail
          (dwmac_of 3 0 false false) hw0).2.trace =
        hw0.trace ++ pre ++
          [Event.reset_control_deassert (dwmac_of 3 0 false false).stmmac_ocp_rst,
           Event.reset_control_deassert (dwmac_of 3 0 false false).stmmac_rst,
           Event.tse_pcs_init r])) :=
  ⟨by decide,
    set_phy_mode_sgmii_pcs_init phy_modes false mmio_regmap pcs_fail
      (dwmac_of 3 0 false false) hw0 (by decide)⟩

/-- C4: in every supported mode with a splitter mapped and a shift
`s ≤ 30`, the value of `val` that is shifted into the mode field is the
GMII/MII encoding 0x0, whatever the nominal mode, never the RGMII encoding
0x1. The value `c'` written back to the control register is the value `c`
read with `0x3 << s` cleared and `0x0 << s` OR-ed in, followed by the PTP
clock step; each of the two mode-field bits of `c'` is 0 unless it is the
PTP clock bit `4 + s / 2` and that bit is being set; and when the PTP clock
bit lies outside the field (`s ≤ 4` or `9 ≤ s`) the field
`(c' >> s) & 0x3` is 0x0. -/
theorem set_phy_mode_splitter_forces_gmii {σ π : Type} (E : PhyModes) (s10 : Bool)
    (m : regmap σ) (P : tse_pcs_ops π) (dwmac : socfpga_dwmac) (st : Hw σ π)
    (h : supported_mode E dwmac.interface) (hs : dwmac.splitter_base = true)
    (h30 : dwmac.reg_shift ≤ 30) :
    physel_val E dwmac = some 0x0 ∧
    ∃ c, last_regmap_write (ctrl_reg s10 dwmac)
        (socfpga_dwmac_set_phy_mode E s10 m P dwmac st).2.trace = some c ∧
      c = (if dwmac.f2h_ptp_ref_clk = true ∨
              dwmac.interface = E.PHY_INTERFACE_MODE_MII ∨
              dwmac.interface = E.PHY_INTERFACE_MODE_GMII ∨
              dwmac.interface = E.PHY_INTERFACE_MODE_SGMII
            then ((ctrl_initial s10 m dwmac st &&& not32 (shl32 0x3 dwmac.reg_shift)) |||
                shl32 0x0 dwmac.reg_shift) ||| shl32 0x10 (dwmac.reg_shift / 2)
            else ((ctrl_initial s10 m dwmac st &&& not32 (shl32 0x3 dwmac.reg_shift)) |||
                shl32 0x0 dwmac.reg_shift) &&& not32 (shl32 0x10 (dwmac.reg_shift / 2))) ∧
      (∀ j, j < 2 → c.testBit (dwmac.reg_shift + j) =
        (decide (dwmac.f2h_ptp_ref_clk = true ∨
              dwmac.interface = E.PHY_INTERFACE_MODE_MII ∨
              dwmac.interface = E.PHY_INTERFACE_MODE_GMII ∨
              dwmac.interface = E.PHY_INTERFACE_MODE_SGMII) &&
          decide (dwmac.reg_shift + j = 4 + dwmac.reg_shift / 2))) ∧
      (dwmac.reg_shift ≤ 4 ∨ 9 ≤ dwmac.reg_shift → (c >>> dwmac.reg_shift) &&& 0x3 = 0x0) := by
  have hv : physel_val E dwmac = some 0x0 := by
    rw [physel_val_some h]
    simp [hs, SYSMGR_EMACGRP_CTRL_PHYSEL_ENUM_GMII_MII]
  refine ⟨hv, _, set_phy_mode_written E s10 m P dwmac st _ hv, ?_, ?_, ?_⟩
  · by_cases hp : dwmac.f2h_ptp_ref_clk = true ∨
        dwmac.interface = E.PHY_INTERFACE_MODE_MII ∨
        dwmac.interface = E.PHY_INTERFACE_MODE_GMII ∨
        dwmac.interface = E.PHY_INTERFACE_MODE_SGMII
    · rw [(ptp_ref_clk_iff E dwmac).2 hp, if_pos hp]
      rfl
    · rw [ptp_ref_clk_false E dwmac hp, if_neg hp]
      rfl
  · intro j hj
    rw [ctrl_update_zero_bits _ _ _ j h30 hj]
    by_cases hp : dwmac.f2h_ptp_ref_clk = true ∨
        dwmac.interface = E.PHY_INTERFACE_MODE_MII ∨
        dwmac.interface = E.PHY_INTERFACE_MODE_GMII ∨
        dwmac.interface = E.PHY_INTERFACE_MODE_SGMII
    · rw [(ptp_ref_clk_iff E dwmac).2 hp, decide_eq_true hp]
    · rw [ptp_ref_clk_false E dwmac hp, decide_eq_false hp]
  · intro hd
    exact ctrl_update_field _ _ _ _ (by decide) h30 hd

/-- C4 at a concrete input: nominal RGMII with a splitter, shift 2, control
register all ones; the value written back is `0xFFFFFFD3`. -/
theorem set_phy_mode_splitter_forces_gmii_witness :
    supported_mode phy_modes (dwmac_of 7 2 true false).interface ∧
    (dwmac_of 7 2 true false).splitter_base = true ∧
    (dwmac_of 7 2 true false).reg_shift ≤ 30 ∧
    last_regmap_write (ctrl_reg false (dwmac_of 7 2 true false))
        (socfpga_dwmac_set_phy_mode phy_modes false mmio_regmap pcs_ok
          (dwmac_of 7 2 true false) hw_ones).2.trace = some 0xFFFFFFD3 ∧
    (physel_val phy_modes (dwmac_of 7 2 true false) = some 0x0 ∧
    ∃ c, last_regmap_write (ctrl_reg false (dwmac_of 7 2 true false))
        (socfpga_dwmac_set_phy_mode phy_modes false mmio_regmap pcs_ok
          (dwmac_of 7 2 true false) hw_ones).2.trace = some c ∧
      c = (if (dwmac_of 7 2 true false).f2h_ptp_ref_clk = true ∨
              (dwmac_of 7 2 true false).interface = phy_modes.PHY_INTERFACE_MODE_MII ∨
              (dwmac_of 7 2 true false).interface = phy_modes.PHY_INTERFACE_MODE_GMII ∨
              (dwmac_of 7 2 true false).interface = phy_modes.PHY_INTERFACE_MODE_SGMII
            then ((ctrl_initial false mmio_regmap (dwmac_of 7 2 true false) hw_ones &&&
                  not32 (shl32 0x3 (dwmac_of 7 2 true false).reg_shift)) |||
                shl32 0x0 (dwmac_of 7 2 true false).reg_shift) |||
                shl32 0x10 ((dwmac_of 7 2 true false).reg_shift / 2)
            else ((ctrl_initial false mmio_regmap (dwmac_of 7 2 true false) hw_ones &&&
                  not32 (shl32 0x3 (dwmac_of 7 2 true false).reg_shift)) |||
                shl32 0x0 (dwmac_of 7 2 true false).reg_shift) &&&
                not32 (shl32 0x10 ((dwmac_of 7 2 true false).reg_shift / 2))) ∧
      (∀ j, j < 2 → c.testBit ((dwmac_of 7 2 true false).reg_shift + j) =
        (decide ((dwmac_of 7 2 true false).f2h_ptp_ref_clk = true ∨
              (dwmac_of 7 2 true false).interface = phy_modes.PHY_INTERFACE_MODE_MII ∨
              (dwmac_of 7 2 true false).interface = phy_modes.PHY_INTERFACE_MODE_GMII ∨
              (dwmac_of 7 2 true false).interface = phy_modes.PHY_INTERFACE_MODE_SGMII) &&
          decide ((dwmac_of 7 2 true false).reg_shift + j =
            4 + (dwmac_of 7 2 true false).reg_shift / 2))) ∧
      ((dwmac_of 7 2 true false).reg_shift ≤ 4 ∨ 9 ≤ (dwmac_of 7 2 true false).reg_shift →
        (c >>> (dwmac_of 7 2 true false).reg_shift) &&& 0x3 = 0x0)) :=
  ⟨by decide, by decide, by decide, by decide,
    set_phy_mode_splitter_forces_gmii phy_modes false mmio_regmap pcs_ok
      (dwmac_of 7 2 true false) hw_ones (by decide) (by decide) (by decide)⟩

/-- C5: in every supported mode, for every shift `s ≤ 30`, every PTP flag
and every 32-bit value `c` read from the control register, the value
written back agrees with `c` on every bit outside
`(0x3 << s) | (0x10 << (s / 2))`. -/
theorem set_phy_mode_ctrl_frame {σ π : Type} (E : PhyModes) (s10 : Bool)
    (m : regmap σ) (P : tse_pcs_ops π) (dwmac : socfpga_dwmac) (st : Hw σ π)
    (h : supported_mode E dwmac.interface) (_hs : dwmac.reg_shift ≤ 30) :
    ∃ c, last_regmap_write (ctrl_reg s10 dwmac)
        (socfpga_dwmac_set_phy_mode E s10 m P dwmac st).2.trace = some c ∧
      c &&& not32 (shl32 0x3 dwmac.reg_shift ||| shl32 0x10 (dwmac.reg_shift / 2)) =
        ctrl_initial s10 m dwmac st &&&
          not32 (shl32 0x3 dwmac.reg_shift ||| shl32 0x10 (dwmac.reg_shift / 2)) := by
  have hv := physel_val_some h
  exact ⟨_, set_phy_mode_written E s10 m P dwmac st _ hv,
    ctrl_update_frame _ _ _ _ (physel_val_lt_four hv)⟩

/-- C5 at a concrete input: RGMII, shift 2, control register all ones. -/
theorem set_phy_mode_ctrl_frame_witness :
    supported_mode phy_modes (dwmac_of 7 2 false false).interface ∧
    (dwmac_of 7 2 false false).reg_shift ≤ 30 ∧
    ∃ c, last_regmap_write (ctrl_reg false (dwmac_of 7 2 false false))
        (socfpga_dwmac_set_phy_mode phy_modes false mmio_regmap pcs_ok
          (dwmac_of 7 2 false false) hw_ones).2.trace = some c ∧
      c &&& not32 (shl32 0x3 (dwmac_of 7 2 false false).reg_shift |||
          shl32 0x10 ((dwmac_of 7 2 false false).reg_shift / 2)) =
        ctrl_initial false mmio_regmap (dwmac_of 7 2 false false) hw_ones &&&
          not32 (shl32 0x3 (dwmac_of 7 2 false false).reg_shift |||
            shl32 0x10 ((dwmac_of 7 2 false false).reg_shift / 2)) :=
  ⟨by decide, by decide,
    set_phy_mode_ctrl_frame phy_modes false mmio_regmap pcs_ok
      (dwmac_of 7 2 false false) hw_ones (by decide) (by decide)⟩

/-- C7: in every supported mode the calls made are, in order: both reset
asserts, then a non-empty run of register accesses through the regmap that
ends with a write, then both reset deasserts, then calls that are neither
resets nor register accesses. So both asserts precede the first register
access, both deasserts follow the last register write, no deassert
precedes a register write and no assert follows one. -/
theorem set_phy_mode_resets_bracket_register_access {σ π : Type} (E : PhyModes) (s10 : Bool)
    (m : regmap σ) (P : tse_pcs_ops π) (dwmac : socfpga_dwmac) (st : Hw σ π)
    (h : supported_mode E dwmac.interface) :
    ∃ (regs post : List Event) (reg val : Nat) (ws : Int),
      (socfpga_dwmac_set_phy_mode E s10 m P dwmac st).2.trace =
        st.trace ++
          [Event.reset_control_assert dwmac.stmmac_ocp_rst,
           Event.reset_control_assert dwmac.stmmac_rst] ++
          (regs ++ [Event.regmap_write reg val ws]) ++
          [Event.reset_control_deassert dwmac.stmmac_ocp_rst,
           Event.reset_control_deassert dwmac.stmmac_rst] ++
          post ∧
      (∀ e ∈ regs, e.is_reg_access = true) ∧
      (∀ e ∈ post, e.is_reg_access = false ∧ e.is_reset = false) := by
  obtain ⟨v, hv⟩ : ∃ v, physel_val E dwmac = some v := ⟨_, physel_val_some h⟩
  obtain ⟨rs, ws, mods, post, ht, hmods, hpost⟩ := set_phy_mode_trace E s10 m P dwmac st _ hv
  refine ⟨Event.regmap_read (ctrl_reg s10 dwmac) (ctrl_initial s10 m dwmac st) rs :: mods, post,
    ctrl_reg s10 dwmac,
    ctrl_update (ctrl_initial s10 m dwmac st) v dwmac.reg_shift (ptp_ref_clk E dwmac), ws, ?_, ?_, ?_⟩
  · rw [ht]
    simp only [List.append_assoc, List.cons_append, List.nil_append]
  · rcases hmods with ⟨-, rfl⟩ | ⟨-, mv, ms, mw, rfl⟩ <;> simp [Event.is_reg_access]
  · rcases hpost with ⟨-, rfl⟩ | ⟨-, rfl⟩ <;> simp [Event.is_reg_access, Event.is_reset]

/-- C7 at a concrete input: SGMII from the power-on state. -/
theorem set_phy_mode_resets_bracket_register_access_witness :
    supported_mode phy_modes (dwmac_of 3 0 false false).interface ∧
    ∃ (regs post : List Event) (reg val : Nat) (ws : Int),
      (socfpga_dwmac_set_phy_mode phy_modes false mmio_regmap pcs_ok
          (dwmac_of 3 0 false false) hw0).2.trace =
        hw0.trace ++
          [Event.reset_control_assert (dwmac_of 3 0 false false).stmmac_ocp_rst,
           Event.reset_control_assert (dwmac_of 3 0 false false).stmmac_rst] ++
          (regs ++ [Event.regmap_write reg val ws]) ++
          [Event.reset_control_deassert (dwmac_of 3 0 false false).stmmac_ocp_rst,
           Event.reset_control_deassert (dwmac_of 3 0 false false).stmmac_rst] ++
          post ∧
      (∀ e ∈ regs, e.is_reg_access = true) ∧
      (∀ e ∈ post, e.is_reg_access = false ∧ e.is_reset = false) :=
  ⟨by decide,
    set_phy_mode_resets_bracket_register_access phy_modes false mmio_regmap pcs_ok
      (dwmac_of 3 0 false false) hw0 (by decide)⟩

/-- C8, as the claim states it, fails: in RGMII mode with the interconnect
reset on line 0 and the core reset on line 1, the reset calls are assert 0,
assert 1, deassert 0, deassert 1, not assert 0, assert 1, deassert 1,
deassert 0. -/
theorem set_phy_mode_deassert_order_counterexample :
    (socfpga_dwmac_set_phy_mode phy_modes false mmio_regmap pcs_ok
        (dwmac_of 7 0 false false) hw0).2.trace.filter Event.is_reset =
      [Event.reset_control_assert (some 0), Event.reset_control_assert (some 1),
       Event.reset_control_deassert (some 0), Event.reset_control_deassert (some 1)] ∧
    (socfpga_dwmac_set_phy_mode phy_modes false mmio_regmap pcs_ok
        (dwmac_of 7 0 false false) hw0).2.trace.filter Event.is_reset ≠
      [Event.reset_control_assert (some 0), Event.reset_control_assert (some 1),
       Event.reset_control_deassert (some 1), Event.reset_control_deassert (some 0)] := by
  refine ⟨?_, ?_⟩ <;> decide

/-- C8, amended: in every supported mode the reset calls made are exactly
assert interconnect (OCP) reset, assert core reset, deassert interconnect
(OCP) reset, deassert core reset: the resets are deasserted in the order
they were asserted, interconnect reset first and core reset last. -/
theorem set_phy_mode_reset_order {σ π : Type} (E : PhyModes) (s10 : Bool)
    (m : regmap σ) (P : tse_pcs_ops π) (dwmac : socfpga_dwmac) (st : Hw σ π)
    (h : supported_mode E dwmac.interface) :
    ∃ t, (socfpga_dwmac_set_phy_mode E s10 m P dwmac st).2.trace = st.trace ++ t ∧
      t.filter Event.is_reset =
        [Event.reset_control_assert dwmac.stmmac_ocp_rst,
         Event.reset_control_assert dwmac.stmmac_rst,
         Event.reset_control_deassert dwmac.stmmac_ocp_rst,
         Event.reset_control_deassert dwmac.stmmac_rst] := by
  obtain ⟨v, hv⟩ : ∃ v, physel_val E dwmac = some v := ⟨_, physel_val_some h⟩
  obtain ⟨rs, ws, mods, post, ht, hmods, hpost⟩ := set_phy_mode_trace E s10 m P dwmac st _ hv
  refine ⟨_, by rw [ht]; simp only [List.append_assoc]; rfl, ?_⟩
  rcases hmods with ⟨-, rfl⟩ | ⟨-, mv, ms, mw, rfl⟩ <;>
  rcases hpost with ⟨-, rfl⟩ | ⟨-, rfl⟩ <;>
  simp [Event.is_reset, List.filter]

/-- C8, amended, at a concrete input: SGMII from the power-on state. -/
theorem set_phy_mode_reset_order_witness :
    supported_mode phy_modes (dwmac_of 3 0 false false).interface ∧
    ∃ t, (socfpga_dwmac_set_phy_mode phy_modes false mmio_regmap pcs_ok
          (dwmac_of 3 0 false false) hw0).2.trace = hw0.trace ++ t ∧
      t.filter Event.is_reset =
        [Event.reset_control_assert (dwmac_of 3 0 false false).stmmac_ocp_rst,
         Event.reset_control_assert (dwmac_of 3 0 false false).stmmac_rst,
         Event.reset_control_deassert (dwmac_of 3 0 false false).stmmac_ocp_rst,
         Event.reset_control_deassert (dwmac_of 3 0 false false).stmmac_rst] :=
  ⟨by decide,
    set_phy_mode_reset_order phy_modes false mmio_regmap pcs_ok
      (dwmac_of 3 0 false false) hw0 (by decide)⟩

/-- C10, as the claim states it, fails: in MII mode with `reg_shift = 8`
and no splitter, the PTP clock bit is bit `4 + 8 / 2 = 8`, the low bit of
the mode field, so the value written back has mode field 1 where the claim
says 0. -/
theorem set_phy_mode_mode_field_counterexample :
    supported_mode phy_modes (dwmac_of 1 8 false false).interface ∧
    (dwmac_of 1 8 false false).reg_shift ≤ 30 ∧
    ∃ c, last_regmap_write (ctrl_reg false (dwmac_of 1 8 false false))
        (socfpga_dwmac_set_phy_mode phy_modes false mmio_regmap pcs_ok
          (dwmac_of 1 8 false false) hw0).2.trace = some c ∧
      (c >>> 8) &&& 0x3 = 1 :=
  ⟨by decide, by decide, 0x100, by decide, by decide⟩

/-- C10, amended: in every supported mode, for every shift `s ≤ 30` with
`s ≤ 4` or `9 ≤ s` (the PTP clock bit `4 + s / 2` lies outside the mode
field), every PTP flag and every value read, the value `c` written back has
`(c >> s) & 0x3` equal to 0x1 when the mode is RGMII or RGMII_ID and no
splitter is mapped, and 0x0 otherwise; setting or clearing the PTP clock
bit leaves that field as the mode step set it. -/
theorem set_phy_mode_mode_field {σ π : Type} (E : PhyModes) (s10 : Bool)
    (m : regmap σ) (P : tse_pcs_ops π) (dwmac : socfpga_dwmac) (st : Hw σ π)
    (h : supported_mode E dwmac.interface) (hs : dwmac.reg_shift ≤ 30)
    (hd : dwmac.reg_shift ≤ 4 ∨ 9 ≤ dwmac.reg_shift) :
    ∃ c, last_regmap_write (ctrl_reg s10 dwmac)
        (socfpga_dwmac_set_phy_mode E s10 m P dwmac st).2.trace = some c ∧
      (c >>> dwmac.reg_shift) &&& 0x3 =
        (if (dwmac.interface = E.PHY_INTERFACE_MODE_RGMII ∨
              dwmac.interface = E.PHY_INTERFACE_MODE_RGMII_ID) ∧ dwmac.splitter_base = false
          then 0x1 else 0x0) ∧
      ∀ (val : Nat) (ptp : Bool), val < 4 →
        (ctrl_update (ctrl_initial s10 m dwmac st) val dwmac.reg_shift ptp >>> dwmac.reg_shift)
            &&& 0x3 =
          (ctrl_physel (ctrl_initial s10 m dwmac st) val dwmac.reg_shift >>> dwmac.reg_shift)
            &&& 0x3 := by
  have hv := physel_val_some h
  refine ⟨_, set_phy_mode_written E s10 m P dwmac st _ hv, ?_, ?_⟩
  · rw [ctrl_update_field _ _ _ _ (physel_val_lt_four hv) hs hd]
    rfl
  · intro val ptp hval
    rw [ctrl_update_field _ _ _ _ hval hs hd, ctrl_physel_field _ _ _ hval hs]

/-- C10, amended, at a concrete input: RGMII with the PTP flag, shift 2. -/
theorem set_phy_mode_mode_field_witness :
    supported_mode phy_modes (dwmac_of 7 2 false true).interface ∧
    (dwmac_of 7 2 false true).reg_shift ≤ 30 ∧
    ((dwmac_of 7 2 false true).reg_shift ≤ 4 ∨ 9 ≤ (dwmac_of 7 2 false true).reg_shift) ∧
    ∃ c, last_regmap_write (ctrl_reg false (dwmac_of 7 2 false true))
        (socfpga_dwmac_set_phy_mode phy_modes false mmio_regmap pcs_ok
          (dwmac_of 7 2 false true) hw_ones).2.trace = some c ∧
      (c >>> (dwmac_of 7 2 false true).reg_shift) &&& 0x3 =
        (if ((dwmac_of 7 2 false true).interface = phy_modes.PHY_INTERFACE_MODE_RGMII ∨
              (dwmac_of 7 2 false true).interface = phy_modes.PHY_INTERFACE_MODE_RGMII_ID) ∧
              (dwmac_of 7 2 false true).splitter_base = false
          then 0x1 else 0x0) ∧
      ∀ (val : Nat) (ptp : Bool), val < 4 →
        (ctrl_update (ctrl_initial false mmio_regmap (dwmac_of 7 2 false true) hw_ones) val
            (dwmac_of 7 2 false true).reg_shift ptp >>> (dwmac_of 7 2 false true).reg_shift)
            &&& 0x3 =
          (ctrl_physel (ctrl_initial false mmio_regmap (dwmac_of 7 2 false true) hw_ones) val
            (dwmac_of 7 2 false true).reg_shift >>> (dwmac_of 7 2 false true).reg_shift)
            &&& 0x3 :=
  ⟨by decide, by decide, by decide,
    set_phy_mode_mode_field phy_modes false mmio_regmap pcs_ok
      (dwmac_of 7 2 false true) hw_ones (by decide) (by decide) (by decide)⟩

/-- C6: with a splitter mapped and a 32-bit value `v` in the splitter
control register, `socfpga_dwmac_fix_mac_speed` at speed 1000, 100 or 10
stores exactly `(v & ~0x3) | e` there, with `e` = 0b00, 0b11, 0b10 in that
order, which is then the register value and agrees with `v` on bits 2 and
up; at every other speed nothing is stored in the splitter and the register
still holds `v`. The function returns no status, so there is no error to
report. -/
theorem fix_mac_speed_splitter_encoding {σ π : Type} (P : tse_pcs_ops π)
    (dwmac : socfpga_dwmac) (speed v : Nat) (st : Hw σ π)
    (hs : dwmac.splitter_base = true) (hv : st.splitter EMAC_SPLITTER_CTRL_REG = v)
    (hv32 : v < 2 ^ 32) :
    (∀ e, (speed = 1000 ∧ e = 0x0) ∨ (speed = 100 ∧ e = 0x3) ∨ (speed = 10 ∧ e = 0x2) →
      (∃ t, (socfpga_dwmac_fix_mac_speed P dwmac speed st).trace = st.trace ++ t ∧
        t.filterMap Event.splitter_store = [(v &&& not32 0x3) ||| e]) ∧
      (socfpga_dwmac_fix_mac_speed P dwmac speed st).splitter EMAC_SPLITTER_CTRL_REG =
        (v &&& not32 0x3) ||| e ∧
      ∀ i, 2 ≤ i → ((v &&& not32 0x3) ||| e).testBit i = v.testBit i) ∧
    (speed ≠ 1000 → speed ≠ 100 → speed ≠ 10 →
      (∃ t, (socfpga_dwmac_fix_mac_speed P dwmac speed st).trace = st.trace ++ t ∧
        t.filterMap Event.splitter_store = []) ∧
      (socfpga_dwmac_fix_mac_speed P dwmac speed st).splitter EMAC_SPLITTER_CTRL_REG = v) := by
  obtain ⟨h1000, h100, h10, hother⟩ := splitter_speed_cases speed
  have hmod : st.splitter EMAC_SPLITTER_CTRL_REG % 2 ^ 32 = v := by
    rw [hv]; exact Nat.mod_eq_of_lt hv32
  refine ⟨?_, ?_⟩
  · intro e he
    have he4 : e < 4 := by
      rcases he with ⟨-, rfl⟩ | ⟨-, rfl⟩ | ⟨-, rfl⟩ <;> decide
    have hsp : splitter_speed speed = some e := by
      rcases he with ⟨h, rfl⟩ | ⟨h, rfl⟩ | ⟨h, rfl⟩
      · exact h1000 h
      · exact h100 h
      · exact h10 h
    have key := fix_mac_speed_splitter_some P dwmac speed e st hs hsp he4
    rw [hmod] at key
    exact ⟨key.1, key.2, fun i hi => splitter_field_high_bits v e i hv32 he4 hi⟩
  · intro n1 n2 n3
    obtain ⟨⟨t, ht, hw, -⟩, hsplit⟩ :=
      fix_mac_speed_splitter_none P dwmac speed st hs (hother n1 n2 n3)
    exact ⟨⟨t, ht, hw⟩, by rw [hsplit, hv]⟩

/-- C6 at a concrete input: speed 100 with the splitter register all ones. -/
theorem fix_mac_speed_splitter_encoding_witness :
    (dwmac_of 3 0 true false).splitter_base = true ∧
    hw_ones.splitter EMAC_SPLITTER_CTRL_REG = 0xFFFFFFFF ∧
    0xFFFFFFFF < 2 ^ 32 ∧
    ((∀ e, ((100 : Nat) = 1000 ∧ e = 0x0) ∨ ((100 : Nat) = 100 ∧ e = 0x3) ∨
        ((100 : Nat) = 10 ∧ e = 0x2) →
      (∃ t, (socfpga_dwmac_fix_mac_speed pcs_ok (dwmac_of 3 0 true false) 100 hw_ones).trace =
          hw_ones.trace ++ t ∧
        t.filterMap Event.splitter_store = [(0xFFFFFFFF &&& not32 0x3) ||| e]) ∧
      (socfpga_dwmac_fix_mac_speed pcs_ok (dwmac_of 3 0 true false) 100 hw_ones).splitter
          EMAC_SPLITTER_CTRL_REG = (0xFFFFFFFF &&& not32 0x3) ||| e ∧
      ∀ i, 2 ≤ i → ((0xFFFFFFFF &&& not32 0x3) ||| e).testBit i = Nat.testBit 0xFFFFFFFF i) ∧
    ((100 : Nat) ≠ 1000 → (100 : Nat) ≠ 100 → (100 : Nat) ≠ 10 →
      (∃ t, (socfpga_dwmac_fix_mac_speed pcs_ok (dwmac_of 3 0 true false) 100 hw_ones).trace =
          hw_ones.trace ++ t ∧
        t.filterMap Event.splitter_store = []) ∧
      (socfpga_dwmac_fix_mac_speed pcs_ok (dwmac_of 3 0 true false) 100 hw_ones).splitter
          EMAC_SPLITTER_CTRL_REG = 0xFFFFFFFF)) :=
  ⟨by decide, by decide, by decide,
    fix_mac_speed_splitter_encoding pcs_ok (dwmac_of 3 0 true false) 100 0xFFFFFFFF hw_ones
      (by decide) (by decide) (by decide)⟩

/-- C9, at the failing input: with splitter, adapter and PCS all mapped and
speed 2500, `socfpga_dwmac_fix_mac_speed` writes the disable value to the
adapter, reads the splitter and returns from the `default:` branch; the
adapter control register is left at `SGMII_ADAPTER_DISABLE` and
`tse_pcs_fix_mac_speed` is never called. Without a splitter the same speed
does reach `tse_pcs_fix_mac_speed`. -/
theorem fix_mac_speed_default_branch_skips_retune :
    (socfpga_dwmac_fix_mac_speed pcs_ok (dwmac_of 3 0 true false) 2500 hw_ones).trace =
      [Event.adapter_writew 0x0001 0x00, Event.splitter_readl 0x0 0xFFFFFFFF] ∧
    (socfpga_dwmac_fix_mac_speed pcs_ok (dwmac_of 3 0 true false) 2500 hw_ones).sgmii_adapter
      SGMII_ADAPTER_CTRL_REG = SGMII_ADAPTER_DISABLE ∧
    (socfpga_dwmac_fix_mac_speed pcs_ok (dwmac_of 3 0 true false) 2500 hw_ones).trace.filter
      Event.is_retune = [] ∧
    (socfpga_dwmac_fix_mac_speed pcs_ok (dwmac_of 3 0 false false) 2500 hw_ones).trace =
      [Event.adapter_writew 0x0001 0x00, Event.tse_pcs_fix_mac_speed 2500] := by
  refine ⟨?_, ?_, ?_, ?_⟩ <;> decide

end DwmacSocfpga
